import Mathlib

/-!
Shallow embedding of the octavia nova compute driver
(`octavia/compute/drivers/nova_driver.py`) and of the member response type
(`octavia/api/v2/types/member.py`), together with theorems settling the
spec claims about them.

Remote calls (novaclient's `ServerManager`, keystone session and nova client
construction) are modelled as oracles: records of functions returning
`Except PyError _`, where `PyError` covers the Python exceptions that can
flow through the driver (raw remote/client errors, `TypeError` from iterating
`None`, `IndexError` from indexing an empty list, and the driver's own
octavia exception classes).  `except Exception:` blocks are modelled as a
match on the `Except` value that catches every error constructor.
-/

set_option autoImplicit false

namespace Octavia

/-- Modelled from the spec: the octavia exception classes
(`octavia.common.exceptions`, not under src/) — one domain error kind per
driver operation, distinguishable by kind alone. -/
inductive OctaviaException where
  | ComputeBuildException
  | ComputeDeleteException
  | ComputeStatusException
  | ComputeGetException
deriving DecidableEq

/-- A Python exception value as seen by the driver's `except Exception:`
handlers: a raw remote/client error (opaque code), a `TypeError` (iterating a
non-iterable such as `None`), an `IndexError` (`[0]` on an empty list), or one
of the driver's own octavia exceptions. -/
inductive PyError where
  | typeError
  | indexError
  | remote (code : Nat)
  | octavia (e : OctaviaException)
deriving DecidableEq

/-- Decidable equality for `Except` results, so that concrete runs of the
embedded operations can be checked by `decide`. -/
instance {ε α : Type} [DecidableEq ε] [DecidableEq α] : DecidableEq (Except ε α) :=
  fun x y =>
    match x, y with
    | .ok a, .ok b =>
      if h : a = b then isTrue (congrArg Except.ok h)
      else isFalse (fun hc => h (Except.ok.inj hc))
    | .ok _, .error _ => isFalse (fun hc => Except.noConfusion hc)
    | .error _, .ok _ => isFalse (fun hc => Except.noConfusion hc)
    | .error a, .error b =>
      if h : a = b then isTrue (congrArg Except.error h)
      else isFalse (fun hc => h (Except.error.inj hc))

/-- Modelled from the spec: the status constants of
`octavia.common.constants` (not under src/) — the binary indicator returned
by `status`: `AMPHORA_UP` for a running instance. -/
def AMPHORA_UP : String := "UP"

/-- Modelled from the spec: the binary indicator returned by `status` for any
non-running instance: `AMPHORA_DOWN`. -/
def AMPHORA_DOWN : String := "DOWN"

/-- A network-attachment descriptor: the `{"net-id": net_id}` dict appended
to `nics` for each entry of `network_ids` in `build`. -/
structure Nic where
  netId : String
deriving DecidableEq

/-- The keyword arguments of the single `self.manager.create(...)` call in
`VirtualMachineManager.build`. -/
structure CreateArgs where
  name : String
  image : Option String
  flavor : Option String
  key_name : Option String
  security_groups : Option (List String)
  nics : List Nic
  config_drive_files : Option (List (String × String))
  user_data : Option String
  config_drive : Bool
deriving DecidableEq

/-- A nova server as returned by `ServerManager.create`/`get`: identifier,
raw lifecycle status string, and the `addresses` dict mapping each network
name to its list of address strings (the `'addr'` fields).  Python dict keys
are unique; theorems that depend on this carry a `Nodup` hypothesis on the
mapped keys. -/
structure NovaResponse where
  id : String
  status : String
  addresses : List (String × List String)
deriving DecidableEq

/-- Oracle for the remote nova `ServerManager`: each operation either
returns a value or fails with some Python-level error. -/
structure ServerManager where
  create : CreateArgs → Except PyError NovaResponse
  delete : String → Except PyError Unit
  get : String → Except PyError NovaResponse

/-- Modelled from the spec: the domain record
`octavia.common.data_models.Amphora` (not under src/) as populated by
`_translate_amphora`: compute id, raw status string, and the nullable
management-network address. -/
structure Amphora where
  compute_id : String
  status : String
  lb_network_ip : Option String
deriving DecidableEq

namespace VirtualMachineManager

/-- The argument record of the one `self.manager.create(...)` call issued by
`build`: each entry of `network_ids` becomes one nic descriptor, in order,
and `config_drive` is hard-coded to `True`. -/
def buildCreateArgs (name : String) (amphora_flavor image_id key_name : Option String)
    (sec_groups : Option (List String)) (network_ids : List String)
    (config_drive_files : Option (List (String × String)))
    (user_data : Option String) : CreateArgs :=
  ⟨name, image_id, amphora_flavor, key_name, sec_groups,
    network_ids.map (fun net_id => Nic.mk net_id),
    config_drive_files, user_data, true⟩

/-- `VirtualMachineManager.build` (nova_driver.py lines 48-89).  The whole
body sits in a `try` whose handler raises `ComputeBuildException`, so a
`TypeError` from `for net_id in network_ids` when `network_ids` is `None`
is caught by the same handler as a remote failure.  The second component
records the trace of remote create calls issued. -/
def build (m : ServerManager) (name : String)
    (amphora_flavor image_id key_name : Option String)
    (sec_groups : Option (List String)) (network_ids : Option (List String))
    (config_drive_files : Option (List (String × String)))
    (user_data : Option String) :
    Except PyError String × List CreateArgs :=
  match network_ids with
  | none => (.error (.octavia .ComputeBuildException), [])
  | some ids =>
    let args := buildCreateArgs name amphora_flavor image_id key_name
      sec_groups ids config_drive_files user_data
    match m.create args with
    | .ok amphora => (.ok amphora.id, [args])
    | .error _ => (.error (.octavia .ComputeBuildException), [args])

/-- `VirtualMachineManager.delete` (lines 91-100): any failure of the remote
delete is logged and re-raised as `ComputeDeleteException`. -/
def delete (m : ServerManager) (amphora_id : String) : Except PyError Unit :=
  match m.delete amphora_id with
  | .ok _ => .ok ()
  | .error _ => .error (.octavia .ComputeDeleteException)

/-- The loop of `_translate_amphora` (lines 141-144): iterate over the
`addresses` dict; on each key equal to the configured `lb_network_name`,
overwrite the accumulator with `addresses[network_name][0]['addr']` —
raising `IndexError` when that network's address list is empty. -/
def selectLbIp (lb_network_name : String) :
    List (String × List String) → Option String → Except PyError (Option String)
  | [], acc => .ok acc
  | entry :: rest, acc =>
    if entry.1 = lb_network_name then
      match entry.2 with
      | [] => .error .indexError
      | addr :: _ => selectLbIp lb_network_name rest (some addr)
    else
      selectLbIp lb_network_name rest acc

/-- `VirtualMachineManager._translate_amphora` (lines 131-150): convert a
nova response into an `Amphora`, selecting the management-network address
via the loop above (`CONF.networking.lb_network_name` is passed explicitly
here). -/
def _translate_amphora (lb_network_name : String) (nova_response : NovaResponse) :
    Except PyError Amphora :=
  match selectLbIp lb_network_name nova_response.addresses none with
  | .error e => .error e
  | .ok lb_network_ip => .ok ⟨nova_response.id, nova_response.status, lb_network_ip⟩

/-- `VirtualMachineManager.get_amphora` (lines 117-129): only the remote
`manager.get` sits inside the `try`; its failure becomes
`ComputeGetException`, while `_translate_amphora` runs after the `try` and
its errors propagate raw. -/
def get_amphora (m : ServerManager) (lb_network_name : String)
    (amphora_id : String) : Except PyError Amphora :=
  match m.get amphora_id with
  | .error _ => .error (.octavia .ComputeGetException)
  | .ok amphora => _translate_amphora lb_network_name amphora

/-- `VirtualMachineManager.status` (lines 102-115): fetch via `get_amphora`
inside a `try` whose handler raises `ComputeStatusException`; return
`AMPHORA_UP` when the translated status is exactly `"ACTIVE"`, and fall
through to `AMPHORA_DOWN` otherwise. -/
def status (m : ServerManager) (lb_network_name : String)
    (amphora_id : String) : Except PyError String :=
  match get_amphora m lb_network_name amphora_id with
  | .error _ => .error (.octavia .ComputeStatusException)
  | .ok amphora =>
    if amphora.status = "ACTIVE" then .ok AMPHORA_UP else .ok AMPHORA_DOWN

end VirtualMachineManager

/-- An opaque keystone session handle (the claims treat it as an opaque
value, so only an identity field is modelled). -/
structure Session where
  sid : Nat
deriving DecidableEq

/-- An opaque nova client handle. -/
structure Client where
  cid : Nat
deriving DecidableEq

/-- The class attributes of `NovaKeystoneAuth`:
`_keystone_session` and `_nova_client`, both initially `None`. -/
structure AuthState where
  keystone_session : Option Session
  nova_client : Option Client
deriving DecidableEq

/-- A log record emitted by `LOG.exception` in `NovaKeystoneAuth`. -/
inductive LogEvent where
  | errorCreatingSession
  | errorCreatingClient
deriving DecidableEq

/-- Oracle for the external constructors: `keystone_client.Password` plus
`session.Session` (one credential exchange), and `nova_client.Client`
(bound to a session and a region). -/
structure AuthEnv where
  newSession : Except PyError Session
  newClient : Session → Option String → Except PyError Client

/-- Result of `_get_keystone_session`: the returned-or-raised value, the
updated class state, the number of credential exchanges performed, and the
log records emitted. -/
structure SessionOut where
  result : Except PyError Session
  state : AuthState
  exchanges : Nat
  logs : List LogEvent
deriving DecidableEq

/-- Result of `get_nova_client`, instrumented the same way. -/
structure ClientOut where
  result : Except PyError Client
  state : AuthState
  exchanges : Nat
  logs : List LogEvent
deriving DecidableEq

namespace NovaKeystoneAuth

/-- `NovaKeystoneAuth._get_keystone_session` (lines 158-177): build the
session on first use only; on failure `save_and_reraise_exception` logs and
re-raises the original error unchanged. -/
def _get_keystone_session (env : AuthEnv) (st : AuthState) : SessionOut :=
  match st.keystone_session with
  | some s => ⟨.ok s, st, 0, []⟩
  | none =>
    match env.newSession with
    | .ok s => ⟨.ok s, ⟨some s, st.nova_client⟩, 1, []⟩
    | .error e => ⟨.error e, st, 1, [.errorCreatingSession]⟩

/-- `NovaKeystoneAuth.get_nova_client` (lines 179-196): build the client on
first use only — the cache check ignores `region` — calling
`_get_keystone_session` inside the `try`; on failure
`save_and_reraise_exception` logs and re-raises the original error
unchanged. -/
def get_nova_client (env : AuthEnv) (region : Option String)
    (st : AuthState) : ClientOut :=
  match st.nova_client with
  | some c => ⟨.ok c, st, 0, []⟩
  | none =>
    let so := _get_keystone_session env st
    match so.result with
    | .error e => ⟨.error e, so.state, so.exchanges, so.logs ++ [.errorCreatingClient]⟩
    | .ok s =>
      match env.newClient s region with
      | .ok c => ⟨.ok c, ⟨so.state.keystone_session, some c⟩, so.exchanges, so.logs⟩
      | .error e => ⟨.error e, so.state, so.exchanges, so.logs ++ [.errorCreatingClient]⟩

end NovaKeystoneAuth

/-- The fields of the member data model relevant to
`MemberResponse.from_data_model`: `name`, plus the two renamed attributes of
`BaseMemberType._type_to_model_map` (`enabled` → `admin_state_up`,
`ip_address` → `address`). `Option` models a wsme `Unset` attribute. -/
structure MemberDataModel where
  name : Option String
  enabled : Option Bool
  ip_address : Option String
deriving DecidableEq

/-- The fields of `MemberResponse` touched by `from_data_model`. -/
structure MemberResponseFields where
  name : Option String
  admin_state_up : Option Bool
  address : Option String
deriving DecidableEq

/-- Modelled from the spec: the generic
`octavia.api.common.types.BaseType.from_data_model` (not under src/) — the
domain-model mapping step that copies each data-model attribute onto the
response type's same-named field, renaming through `_type_to_model_map`,
leaving absent attributes unset. -/
def baseMemberFromDataModel (dm : MemberDataModel) : MemberResponseFields :=
  ⟨dm.name, dm.enabled, dm.ip_address⟩

namespace MemberResponse

/-- `MemberResponse.from_data_model` (member.py lines 41-48): run the base
mapping, then `if not member.name: member.name = ""` — the Python falsy
check catches both an unset name and an empty string. -/
def from_data_model (dm : MemberDataModel) : MemberResponseFields :=
  let member := baseMemberFromDataModel dm
  if member.name = none ∨ member.name = some "" then
    ⟨some "", member.admin_state_up, member.address⟩
  else
    member

end MemberResponse

/-- A concrete response whose instance is ACTIVE and reachable on the
management network `"mgmt"` (the example of spec section 8). -/
def respActive : NovaResponse :=
  ⟨"vm-123", "ACTIVE", [("public", ["10.0.0.5"]), ("mgmt", ["192.168.1.9"])]⟩

/-- A concrete response still building. -/
def respBuild : NovaResponse :=
  ⟨"vm-123", "BUILD", [("mgmt", ["192.168.1.9"])]⟩

/-- A manager whose remote calls all succeed, returning `respActive`. -/
def mgrActive : ServerManager :=
  ⟨fun _ => .ok respActive, fun _ => .ok (), fun _ => .ok respActive⟩

/-- A manager whose remote calls all fail with raw remote errors (`get`
fails with a not-found error, as nova does for an absent instance). -/
def mgrFailing : ServerManager :=
  ⟨fun _ => .error (.remote 500), fun _ => .error (.remote 500),
    fun _ => .error (.remote 404)⟩

/-- An auth environment whose constructors succeed. -/
def envOk : AuthEnv :=
  ⟨.ok ⟨1⟩, fun _ _ => .ok ⟨7⟩⟩

/-- An auth environment whose credential exchange is rejected. -/
def envNoSession : AuthEnv :=
  ⟨.error (.remote 401), fun _ _ => .ok ⟨7⟩⟩

/-- An auth environment whose client construction fails. -/
def envNoClient : AuthEnv :=
  ⟨.ok ⟨1⟩, fun _ _ => .error (.remote 503)⟩

/-- The initial class state of `NovaKeystoneAuth`: nothing cached. -/
def stEmpty : AuthState := ⟨none, none⟩

/-- If no entry of the addresses dict carries the configured network name,
the selection loop of `_translate_amphora` returns its accumulator
unchanged. -/
theorem selectLbIp_of_no_match (lb_network_name : String)
    (l : List (String × List String)) (acc : Option String)
    (h : ∀ p ∈ l, p.1 ≠ lb_network_name) :
    VirtualMachineManager.selectLbIp lb_network_name l acc = .ok acc := by
  induction l with
  | nil => rfl
  | cons entry rest ih =>
    have h1 : entry.1 ≠ lb_network_name := h entry (List.mem_cons_self entry rest)
    have h2 : ∀ p ∈ rest, p.1 ≠ lb_network_name := fun p hp =>
      h p (List.mem_cons_of_mem entry hp)
    simp [VirtualMachineManager.selectLbIp, h1, ih h2]

/-- With distinct network names (Python dict keys are unique), the selection
loop of `_translate_amphora` agrees with a first-match lookup: no matching
entry leaves the accumulator `none`, a matching entry with an empty address
list raises `IndexError`, and otherwise the matching entry's first address
is selected. -/
theorem selectLbIp_eq_lookup (lb_network_name : String)
    (l : List (String × List String))
    (hnd : (l.map Prod.fst).Nodup) :
    VirtualMachineManager.selectLbIp lb_network_name l none =
      match l.lookup lb_network_name with
      | none => .ok none
      | some [] => .error .indexError
      | some (addr :: _) => .ok (some addr) := by
  induction l with
  | nil => rfl
  | cons entry rest ih =>
    obtain ⟨nm, addrs⟩ := entry
    rw [List.map_cons, List.nodup_cons] at hnd
    by_cases hm : nm = lb_network_name
    · subst hm
      have hrest : ∀ p ∈ rest, p.1 ≠ nm := by
        intro p hp hpeq
        have hmem : p.1 ∈ List.map Prod.fst rest := List.mem_map_of_mem Prod.fst hp
        rw [hpeq] at hmem
        exact hnd.1 hmem
      cases addrs with
      | nil => simp [VirtualMachineManager.selectLbIp, List.lookup]
      | cons addr more =>
        simp [VirtualMachineManager.selectLbIp, List.lookup,
          selectLbIp_of_no_match nm rest (some addr) hrest]
    · have hm2 : (lb_network_name == nm) = false :=
        beq_eq_false_iff_ne.mpr (fun hc => hm hc.symm)
      simp [VirtualMachineManager.selectLbIp, List.lookup, hm, hm2, ih hnd.2]

/-- Counterexample to claim C3 as stated: on the fetched instance
`⟨"vm-1", "ACTIVE", [("mgmt", [])]⟩` with configured management-network name
`"mgmt"`, a network name matches but its address list is empty, and
`_translate_amphora` raises `IndexError` instead of producing a translated
resource. -/
theorem claim3_counterexample :
    VirtualMachineManager._translate_amphora "mgmt"
      ⟨"vm-1", "ACTIVE", [("mgmt", [])]⟩ = .error .indexError := by
  decide

/-- Claim C3 (amended): for every fetched instance with distinct network
names, if no network name equals the configured management-network name the
translation succeeds with an unset network address; if the matching network
lists at least one address the translation succeeds and the network address
is that network's first address; if the matching network lists no addresses
the translation raises `IndexError`. -/
theorem claim3_theorem (lb_network_name : String) (resp : NovaResponse)
    (hnd : (resp.addresses.map Prod.fst).Nodup) :
    (resp.addresses.lookup lb_network_name = none →
      VirtualMachineManager._translate_amphora lb_network_name resp =
        .ok ⟨resp.id, resp.status, none⟩) ∧
    (∀ (addr : String) (more : List String),
      resp.addresses.lookup lb_network_name = some (addr :: more) →
      VirtualMachineManager._translate_amphora lb_network_name resp =
        .ok ⟨resp.id, resp.status, some addr⟩) ∧
    (resp.addresses.lookup lb_network_name = some [] →
      VirtualMachineManager._translate_amphora lb_network_name resp =
        .error .indexError) := by
  have h := selectLbIp_eq_lookup lb_network_name resp.addresses hnd
  refine ⟨fun h0 => ?_, fun addr more h1 => ?_, fun h2 => ?_⟩
  · rw [h0] at h
    simp [VirtualMachineManager._translate_amphora, h]
  · rw [h1] at h
    simp [VirtualMachineManager._translate_amphora, h]
  · rw [h2] at h
    simp [VirtualMachineManager._translate_amphora, h]

/-- Witness for claim C3 at the concrete instance of spec section 8: the
management network `"mgmt"` carries `"192.168.1.9"` and translation selects
it. -/
theorem claim3_witness :
    VirtualMachineManager._translate_amphora "mgmt" respActive =
      .ok ⟨"vm-123", "ACTIVE", some "192.168.1.9"⟩ :=
  ( claim3_theorem "mgmt" respActive (by decide)).2.1 "192.168.1.9" [] (by decide)

/-- Counterexample to claim C1 as stated: when the instance is absent on the
remote side (nova `get` fails with a not-found error, as `mgrFailing.get`
does), `status` raises `ComputeStatusException` instead of yielding
`AMPHORA_DOWN`. -/
theorem claim1_counterexample :
    VirtualMachineManager.status mgrFailing "mgmt" "vm-gone" =
        .error (.octavia .ComputeStatusException) ∧
      VirtualMachineManager.status mgrFailing "mgmt" "vm-gone" ≠
        .ok AMPHORA_DOWN := by
  decide

/-- Claim C1 (amended): when the instance is fetched and translated
successfully, `status` returns `AMPHORA_UP` iff the raw status string is
exactly `"ACTIVE"` and returns `AMPHORA_DOWN` iff it is anything else; when
the instance is absent on the remote side (the remote get fails), `status`
raises `ComputeStatusException` instead of returning `AMPHORA_DOWN`. -/
theorem claim1_theorem :
    (∀ (m : ServerManager) (lb_network_name amphora_id : String)
        (resp : NovaResponse) (amph : Amphora),
      m.get amphora_id = .ok resp →
      VirtualMachineManager._translate_amphora lb_network_name resp = .ok amph →
      (VirtualMachineManager.status m lb_network_name amphora_id = .ok AMPHORA_UP ↔
        amph.status = "ACTIVE") ∧
      (VirtualMachineManager.status m lb_network_name amphora_id = .ok AMPHORA_DOWN ↔
        amph.status ≠ "ACTIVE")) ∧
    (∀ (m : ServerManager) (lb_network_name amphora_id : String) (e : PyError),
      m.get amphora_id = .error e →
      VirtualMachineManager.status m lb_network_name amphora_id =
        .error (.octavia .ComputeStatusException)) := by
  constructor
  · intro m lbn aid resp amph hget htr
    have hud : AMPHORA_UP ≠ AMPHORA_DOWN := by decide
    have hs : VirtualMachineManager.status m lbn aid =
        if amph.status = "ACTIVE" then .ok AMPHORA_UP else .ok AMPHORA_DOWN := by
      simp [VirtualMachineManager.status, VirtualMachineManager.get_amphora, hget, htr]
    rw [hs]
    by_cases h : amph.status = "ACTIVE" <;> simp [h, hud, Ne.symm hud]
  · intro m lbn aid e hget
    simp [VirtualMachineManager.status, VirtualMachineManager.get_amphora, hget]

/-- Witness for claim C1: an ACTIVE instance yields `AMPHORA_UP`, and an
absent instance yields `ComputeStatusException`. -/
theorem claim1_witness :
    VirtualMachineManager.status mgrActive "mgmt" "vm-123" = .ok AMPHORA_UP ∧
    VirtualMachineManager.status mgrFailing "mgmt" "vm-two" =
      .error (.octavia .ComputeStatusException) := by
  constructor
  · exact (( claim1_theorem.1 mgrActive "mgmt" "vm-123" respActive
      ⟨"vm-123", "ACTIVE", some "192.168.1.9"⟩ (by decide) (by decide)).1).mpr (by decide)
  · exact claim1_theorem.2 mgrFailing "mgmt" "vm-two" (.remote 404) (by decide)

/-- Claim C2: for every failure of the underlying remote call, `build`
raises exactly `ComputeBuildException`, `delete` exactly
`ComputeDeleteException`, `status` exactly `ComputeStatusException`, and
`get_amphora` exactly `ComputeGetException` — never the raw remote error. -/
theorem claim2_theorem :
    (∀ (m : ServerManager) (name : String)
        (amphora_flavor image_id key_name : Option String)
        (sec_groups : Option (List String)) (ids : List String)
        (config_drive_files : Option (List (String × String)))
        (user_data : Option String) (e : PyError),
      m.create (VirtualMachineManager.buildCreateArgs name amphora_flavor
          image_id key_name sec_groups ids config_drive_files user_data) =
        .error e →
      (VirtualMachineManager.build m name amphora_flavor image_id key_name
          sec_groups (some ids) config_drive_files user_data).1 =
        .error (.octavia .ComputeBuildException)) ∧
    (∀ (m : ServerManager) (amphora_id : String) (e : PyError),
      m.delete amphora_id = .error e →
      VirtualMachineManager.delete m amphora_id =
        .error (.octavia .ComputeDeleteException)) ∧
    (∀ (m : ServerManager) (lb_network_name amphora_id : String) (e : PyError),
      m.get amphora_id = .error e →
      VirtualMachineManager.status m lb_network_name amphora_id =
        .error (.octavia .ComputeStatusException)) ∧
    (∀ (m : ServerManager) (lb_network_name amphora_id : String) (e : PyError),
      m.get amphora_id = .error e →
      VirtualMachineManager.get_amphora m lb_network_name amphora_id =
        .error (.octavia .ComputeGetException)) := by
  refine ⟨?_, ?_, ?_, ?_⟩
  · intro m name fl im k sg ids cdf ud e h
    simp [VirtualMachineManager.build, h]
  · intro m aid e h
    simp [VirtualMachineManager.delete, h]
  · intro m lbn aid e h
    simp [VirtualMachineManager.status, VirtualMachineManager.get_amphora, h]
  · intro m lbn aid e h
    simp [VirtualMachineManager.get_amphora, h]

/-- Witness for claim C2: against a manager whose remote calls all fail, all
four operations yield their own domain error kind. -/
theorem claim2_witness :
    (VirtualMachineManager.build mgrFailing "amphora_name" none none none none
        (some ["net-a"]) none none).1 = .error (.octavia .ComputeBuildException) ∧
    VirtualMachineManager.delete mgrFailing "vm-1" =
      .error (.octavia .ComputeDeleteException) ∧
    VirtualMachineManager.status mgrFailing "mgmt" "vm-1" =
      .error (.octavia .ComputeStatusException) ∧
    VirtualMachineManager.get_amphora mgrFailing "mgmt" "vm-1" =
      .error (.octavia .ComputeGetException) :=
  ⟨ claim2_theorem.1 mgrFailing "amphora_name" none none none none ["net-a"]
      none none (.remote 500) (by decide),
    claim2_theorem.2.1 mgrFailing "vm-1" (.remote 500) (by decide),
    claim2_theorem.2.2.1 mgrFailing "mgmt" "vm-1" (.remote 404) (by decide),
    claim2_theorem.2.2.2 mgrFailing "mgmt" "vm-1" (.remote 404) (by decide)⟩

/-- Claim C4: if the remote create call succeeds, `build` returns exactly
the identifier the remote call produced, untransformed. -/
theorem claim4_theorem :
    ∀ (m : ServerManager) (name : String)
      (amphora_flavor image_id key_name : Option String)
      (sec_groups : Option (List String)) (ids : List String)
      (config_drive_files : Option (List (String × String)))
      (user_data : Option String) (resp : NovaResponse),
      m.create (VirtualMachineManager.buildCreateArgs name amphora_flavor
          image_id key_name sec_groups ids config_drive_files user_data) =
        .ok resp →
      (VirtualMachineManager.build m name amphora_flavor image_id key_name
          sec_groups (some ids) config_drive_files user_data).1 = .ok resp.id := by
  intro m name fl im k sg ids cdf ud resp h
  simp [VirtualMachineManager.build, h]

/-- Witness for claim C4: building against `mgrActive` returns the remote
identifier `"vm-123"` unchanged. -/
theorem claim4_witness :
    (VirtualMachineManager.build mgrActive "amphora-1" none (some "img-1") none
        none (some ["net-a", "net-b"]) none none).1 = .ok "vm-123" :=
  claim4_theorem mgrActive "amphora-1" none (some "img-1") none none
    ["net-a", "net-b"] none none respActive (by decide)

/-- Whenever `network_ids` is an actual list, `build` issues exactly one
remote create call, with the arguments assembled by `buildCreateArgs`. -/
theorem build_trace_eq (m : ServerManager) (name : String)
    (amphora_flavor image_id key_name : Option String)
    (sec_groups : Option (List String)) (ids : List String)
    (config_drive_files : Option (List (String × String)))
    (user_data : Option String) :
    (VirtualMachineManager.build m name amphora_flavor image_id key_name
        sec_groups (some ids) config_drive_files user_data).2 =
      [VirtualMachineManager.buildCreateArgs name amphora_flavor image_id
        key_name sec_groups ids config_drive_files user_data] := by
  simp only [VirtualMachineManager.build]
  cases m.create (VirtualMachineManager.buildCreateArgs name amphora_flavor
    image_id key_name sec_groups ids config_drive_files user_data) <;> rfl

/-- Claim C5: every successful `build` invocation issues exactly one remote
create call, that call has config-drive mode enabled, and it carries one
network-attachment descriptor per entry of `network_ids`, in input order. -/
theorem claim5_theorem :
    ∀ (m : ServerManager) (name : String)
      (amphora_flavor image_id key_name : Option String)
      (sec_groups : Option (List String)) (ids : List String)
      (config_drive_files : Option (List (String × String)))
      (user_data : Option String) (r : String),
      (VirtualMachineManager.build m name amphora_flavor image_id key_name
          sec_groups (some ids) config_drive_files user_data).1 = .ok r →
      (VirtualMachineManager.build m name amphora_flavor image_id key_name
          sec_groups (some ids) config_drive_files user_data).2 =
        [VirtualMachineManager.buildCreateArgs name amphora_flavor image_id
          key_name sec_groups ids config_drive_files user_data] ∧
      ∀ args ∈ (VirtualMachineManager.build m name amphora_flavor image_id
          key_name sec_groups (some ids) config_drive_files user_data).2,
        args.config_drive = true ∧
        args.nics = ids.map (fun net_id => Nic.mk net_id) := by
  intro m name fl im k sg ids cdf ud r _hok
  have ht := build_trace_eq m name fl im k sg ids cdf ud
  refine ⟨ht, ?_⟩
  intro args hargs
  rw [ht, List.mem_singleton] at hargs
  subst hargs
  exact ⟨rfl, rfl⟩

/-- Witness for claim C5: the end-to-end scenario of spec section 8 — one
create call, two nic descriptors in order, `config_drive = true`. -/
theorem claim5_witness :
    (VirtualMachineManager.build mgrActive "amphora-1" none (some "img-1") none
        none (some ["net-a", "net-b"]) none none).2 =
      [VirtualMachineManager.buildCreateArgs "amphora-1" none (some "img-1")
        none none ["net-a", "net-b"] none none] :=
  ( claim5_theorem mgrActive "amphora-1" none (some "img-1") none none
    ["net-a", "net-b"] none none "vm-123" (by decide)).1

/-- A cached nova client is returned as-is, with no state change, no
credential exchange, and no log output — whatever the region argument is. -/
theorem get_nova_client_cached (env : AuthEnv) (region : Option String)
    (st : AuthState) (c : Client) (h : st.nova_client = some c) :
    NovaKeystoneAuth.get_nova_client env region st = ⟨.ok c, st, 0, []⟩ := by
  simp [NovaKeystoneAuth.get_nova_client, h]

/-- A cached keystone session is returned as-is, with no state change, no
credential exchange, and no log output. -/
theorem get_keystone_session_cached (env : AuthEnv) (st : AuthState)
    (s : Session) (h : st.keystone_session = some s) :
    NovaKeystoneAuth._get_keystone_session env st = ⟨.ok s, st, 0, []⟩ := by
  simp [NovaKeystoneAuth._get_keystone_session, h]

/-- Claim C6: after any successful `get_nova_client` call, the client is
cached, and every later call — with any region argument — returns that same
cached client unchanged, leaving the state fixed: the cache is not keyed by
region. -/
theorem claim6_theorem :
    ∀ (env : AuthEnv) (region0 : Option String) (st0 : AuthState)
      (c : Client) (st1 : AuthState) (n : Nat) (lg : List LogEvent),
      NovaKeystoneAuth.get_nova_client env region0 st0 = ⟨.ok c, st1, n, lg⟩ →
      st1.nova_client = some c ∧
      ∀ region1 : Option String,
        NovaKeystoneAuth.get_nova_client env region1 st1 = ⟨.ok c, st1, 0, []⟩ := by
  intro env r0 st0 c st1 n lg h
  have hmain : st1.nova_client = some c := by
    cases hn : st0.nova_client with
    | some c0 =>
      rw [get_nova_client_cached env r0 st0 c0 hn] at h
      simp only [ClientOut.mk.injEq] at h
      obtain ⟨h1, h2, _, _⟩ := h
      rw [← h2, hn, Except.ok.inj h1]
    | none =>
      simp only [NovaKeystoneAuth.get_nova_client, hn] at h
      cases hr : (NovaKeystoneAuth._get_keystone_session env st0).result with
      | error e => simp [hr] at h
      | ok s =>
        simp only [hr] at h
        cases hc : env.newClient s r0 with
        | error e => simp [hc] at h
        | ok c2 =>
          simp only [hc, ClientOut.mk.injEq] at h
          obtain ⟨h1, h2, _, _⟩ := h
          rw [← h2, Except.ok.inj h1]
  exact ⟨hmain, fun r1 => get_nova_client_cached env r1 st1 c hmain⟩

/-- Witness for claim C6: after a first successful call with region
`"region-one"`, a second call with region `"region-two"` returns the very
client built on the first call. -/
theorem claim6_witness :
    NovaKeystoneAuth.get_nova_client envOk (some "region-two")
        ⟨some ⟨1⟩, some ⟨7⟩⟩ =
      ⟨.ok ⟨7⟩, ⟨some ⟨1⟩, some ⟨7⟩⟩, 0, []⟩ :=
  ( claim6_theorem envOk (some "region-one") stEmpty ⟨7⟩ ⟨some ⟨1⟩, some ⟨7⟩⟩ 1 []
    (by decide)).2 (some "region-two")

/-- Claim C7: after any successful session acquisition, the session is
cached, and every later acquisition returns that same session with zero new
credential exchanges and an unchanged state; the embedding has no
invalidation path (no operation ever clears the cached session). -/
theorem claim7_theorem :
    ∀ (env : AuthEnv) (st0 : AuthState) (s : Session) (st1 : AuthState)
      (n : Nat) (lg : List LogEvent),
      NovaKeystoneAuth._get_keystone_session env st0 = ⟨.ok s, st1, n, lg⟩ →
      st1.keystone_session = some s ∧
      NovaKeystoneAuth._get_keystone_session env st1 = ⟨.ok s, st1, 0, []⟩ := by
  intro env st0 s st1 n lg h
  have hmain : st1.keystone_session = some s := by
    cases hn : st0.keystone_session with
    | some s0 =>
      rw [get_keystone_session_cached env st0 s0 hn] at h
      simp only [SessionOut.mk.injEq] at h
      obtain ⟨h1, h2, _, _⟩ := h
      rw [← h2, hn, Except.ok.inj h1]
    | none =>
      simp only [NovaKeystoneAuth._get_keystone_session, hn] at h
      cases hr : env.newSession with
      | error e => simp [hr] at h
      | ok s2 =>
        simp only [hr, SessionOut.mk.injEq] at h
        obtain ⟨h1, h2, _, _⟩ := h
        rw [← h2, Except.ok.inj h1]
  exact ⟨hmain, get_keystone_session_cached env st1 s hmain⟩

/-- Witness for claim C7: after a first acquisition that performed one
credential exchange, the next acquisition returns the same session with
zero exchanges. -/
theorem claim7_witness :
    NovaKeystoneAuth._get_keystone_session envOk ⟨some ⟨1⟩, none⟩ =
      ⟨.ok ⟨1⟩, ⟨some ⟨1⟩, none⟩, 0, []⟩ :=
  ( claim7_theorem envOk stEmpty ⟨1⟩ ⟨some ⟨1⟩, none⟩ 1 [] (by decide)).2

/-- Claim C8: when session construction or client construction fails, the
failure is logged at the point of failure and the original error value is
re-raised unchanged, so the caller sees the original cause. -/
theorem claim8_theorem :
    (∀ (env : AuthEnv) (st : AuthState) (e : PyError),
      st.keystone_session = none → env.newSession = .error e →
      NovaKeystoneAuth._get_keystone_session env st =
        ⟨.error e, st, 1, [.errorCreatingSession]⟩) ∧
    (∀ (env : AuthEnv) (region : Option String) (st : AuthState)
        (s : Session) (e : PyError),
      st.nova_client = none → st.keystone_session = some s →
      env.newClient s region = .error e →
      NovaKeystoneAuth.get_nova_client env region st =
        ⟨.error e, st, 0, [.errorCreatingClient]⟩) := by
  constructor
  · intro env st e hks hns
    simp [NovaKeystoneAuth._get_keystone_session, hks, hns]
  · intro env region st s e hnc hks hcl
    simp [NovaKeystoneAuth.get_nova_client, hnc,
      get_keystone_session_cached env st s hks, hcl]

/-- Witness for claim C8: a rejected credential exchange and a failed client
construction each surface their own original error, with the matching log
record. -/
theorem claim8_witness :
    NovaKeystoneAuth._get_keystone_session envNoSession stEmpty =
      ⟨.error (.remote 401), stEmpty, 1, [.errorCreatingSession]⟩ ∧
    NovaKeystoneAuth.get_nova_client envNoClient none ⟨some ⟨1⟩, none⟩ =
      ⟨.error (.remote 503), ⟨some ⟨1⟩, none⟩, 0, [.errorCreatingClient]⟩ :=
  ⟨ claim8_theorem.1 envNoSession stEmpty (.remote 401) (by decide) (by decide),
    claim8_theorem.2 envNoClient none ⟨some ⟨1⟩, none⟩ ⟨1⟩ (.remote 503)
      (by decide) (by decide) (by decide)⟩

/-- Claim C9: calling `build` with `network_ids = None` raises the
`TypeError` from iterating `None` inside the same `try` as the remote call,
so `build` yields `ComputeBuildException` even though no remote create call
was ever issued (the call trace is empty). -/
theorem claim9_theorem :
    ∀ (m : ServerManager) (name : String)
      (amphora_flavor image_id key_name : Option String)
      (sec_groups : Option (List String))
      (config_drive_files : Option (List (String × String)))
      (user_data : Option String),
      VirtualMachineManager.build m name amphora_flavor image_id key_name
          sec_groups none config_drive_files user_data =
        (.error (.octavia .ComputeBuildException), []) := by
  intro m name fl im k sg cdf ud
  rfl

/-- Claim C10: for every data model mapped through the member response type,
the resulting name is the base-mapped name with an empty or unset value
defaulted to the empty string, so the returned member response never has an
unset name. -/
theorem claim10_theorem :
    ∀ dm : MemberDataModel,
      (MemberResponse.from_data_model dm).name =
        some (((baseMemberFromDataModel dm).name).getD "") ∧
      (MemberResponse.from_data_model dm).name ≠ none := by
  intro dm
  cases hn : dm.name with
  | none =>
    simp [MemberResponse.from_data_model, baseMemberFromDataModel, hn]
  | some s =>
    by_cases hs : s = ""
    · subst hs
      simp [MemberResponse.from_data_model, baseMemberFromDataModel, hn]
    · simp [MemberResponse.from_data_model, baseMemberFromDataModel, hn, hs]

end Octavia
